import Mathlib

/-
Verification development for the Last-Row pitch-control analysis scripts
(src/scripts/PlayerPitchControlAnalysis.py and src/scripts/Metrica_Viz.py).

Tracking tables (pandas DataFrames) are embedded as association lists:
a table maps a frame number to a row, and a row maps a column key to an
optional rational (none embeds a NaN cell, matching the NaN-as-absence
convention of the data model).  Column names, which the source builds by
string interpolation as team_playerId_suffix, are embedded as a structured
key type; the ball and time columns of a table are separate constructors.
Python floats are embedded as rationals.  Raised exceptions are embedded
with Except, using the error taxonomy of the specification.
-/

set_option linter.unusedVariables false
set_option synthInstance.maxSize 4000
set_option maxRecDepth 100000

namespace LastRow

/-- Per-player column suffixes x, y, vx, vy used by the tracking tables. -/
inductive PField
  | x
  | y
  | vx
  | vy
deriving DecidableEq

/-- Column key of a tracking table.  The source writes player columns as
the string team_playerId_suffix; we embed them structurally. -/
inductive ColKey
  | player (team : String) (pid : String) (f : PField)
  | ball_x
  | ball_y
  | time
deriving DecidableEq

/-- One row of a tracking table: column keys to optional values
(none embeds a NaN cell). -/
abbrev Row := List (ColKey × Option ℚ)

/-- A tracking table: frame numbers to rows, in index order. -/
abbrev DFrame := List (ℕ × Row)

/-- The df_dict of the analyzer: team name to tracking table, in
dictionary insertion order. -/
abbrev DfDict := List (String × DFrame)

/-- One event row: its Start Frame and possessing Team. -/
structure Event where
  startFrame : ℕ
  team : String
deriving DecidableEq

/-- The events table: event id to event row. -/
abbrev Events := List (ℕ × Event)

/-- The model-parameter bundle; an opaque dictionary of named rationals,
passed through to the surface generator untouched. -/
abbrev Params := List (String × ℚ)

/-- The player_to_analyze argument; in the source it may be any Python
object, of which only str and int pass validation. -/
inductive PlayerId
  | str (s : String)
  | int (n : ℤ)
  | other
deriving DecidableEq

/-- Rendering of a player id by the Python str() builtin, as used to
build column names and compare against parsed column ids. -/
def PlayerId.toStr : PlayerId → String
  | .str s => s
  | .int n => toString n
  | .other => "object"

/-- Test replicating type(player_to_analyze) in (str, int). -/
def PlayerId.isStrOrInt : PlayerId → Bool
  | .str _ => true
  | .int _ => true
  | .other => false

/-- Error taxonomy of the specification.  In the source the first four
are ValueError with distinct messages, the frame-index mismatch is an
assert, and keyError stands for lookup failures of pandas .loc. -/
inductive AnalysisError
  | invalidPlayerError
  | invalidTeamError
  | playerNotOnPitchError
  | invalidModeError
  | mismatchedFrameIndexError
  | keyError
  | shapeBroadcastError
deriving DecidableEq

/-- Lookup of the first entry with the given key in an association list,
as pandas .loc and dict subscription behave on well-formed tables. -/
def alistGet {α β : Type} [DecidableEq α] : List (α × β) → α → Option β
  | [], _ => none
  | (k, v) :: t, k2 => if k = k2 then some v else alistGet t k2

/-- Update of the first entry with the given key, appending when absent;
this is how a pandas .at assignment behaves on a missing label. -/
def alistSet {α β : Type} [DecidableEq α] : List (α × β) → α → β → List (α × β)
  | [], k, v => [(k, v)]
  | (k1, v1) :: t, k, v => if k1 = k then (k, v) :: t else (k1, v1) :: alistSet t k v

/-- Row of a tracking table at a frame, as df.loc. -/
def dfLoc (df : DFrame) (frame : ℕ) : Option Row := alistGet df frame

/-- Cell of a row, as row subscription: none when the column is absent,
some none when the cell is NaN. -/
def rowGet (r : Row) (c : ColKey) : Option (Option ℚ) := alistGet r c

/-- Functional embedding of the pandas .at write df.at[frame, col] = v. -/
def dfAt (df : DFrame) (frame : ℕ) (c : ColKey) (v : Option ℚ) : DFrame :=
  match df with
  | [] => [(frame, [(c, v)])]
  | (f, row) :: t =>
    if f = frame then (f, alistSet row c v) :: t else (f, row) :: dfAt t frame c v

/-- Embedding of the copy-then-reassign loop over tmp_df_dict.items()
that replaces the analyzed team entry by a rewritten copy of its table
and leaves every other entry untouched. -/
def replaceTeamDf (d : DfDict) (team : String) (g : DFrame → DFrame) : DfDict :=
  d.map fun kv => (kv.1, if kv.1 = team then g kv.2 else kv.2)

/-- Column key of the analyzed player for a given suffix, embedding the
f-string team_playerId_suffix of the source. -/
def pcol (team : String) (p : PlayerId) (f : PField) : ColKey :=
  ColKey.player team p.toStr f

/-- Conversion of an optional lookup into the Except embedding of a
raised pandas KeyError. -/
def exceptOf {α : Type} : Option α → Except AnalysisError α
  | some x => Except.ok x
  | none => Except.error AnalysisError.keyError

/-- A pitch control surface: rows (y direction) of cell values. -/
abbrev Surface := List (List ℚ)

/-- Arguments of one call of the surface generator, with the grid
parameters already resolved to concrete values. -/
structure GenArgs where
  event_id : ℕ
  events : Events
  df_dict : DfDict
  params : Params
  field_dimen : ℚ × ℚ
  n_grid_cells_x : ℕ
deriving DecidableEq

/-- Floor of a nonnegative rational, embedding the int() truncation the
generator applies to derive the y cell count (its argument is a ratio of
positive dimensions, where truncation and floor agree). -/
def ratFloorNat (q : ℚ) : ℕ := q.num.toNat / q.den

/-- Modelled from the spec: the collaborator module Metrica_PitchControl
is not under src/.  Per section 4.3 of the spec, the y cell count is
derived from n_grid_cells_x to keep cells approximately square given the
field width. -/
def n_grid_cells_y (fd : ℚ × ℚ) (nx : ℕ) : ℕ :=
  ratFloorNat ((nx : ℚ) * fd.2 / fd.1)

/-- Modelled from the spec: n evenly spaced sample coordinates spanning
a field dimension, centered on the pitch origin. -/
def gridCoords (len : ℚ) (n : ℕ) : List ℚ :=
  (List.range n).map fun i => len * (2 * (i : ℚ) + 1) / (2 * (n : ℚ)) - len / 2

/-- Modelled from the spec: generate_pitch_control_for_event of the
missing collaborator Metrica_PitchControl.  It deterministically builds
the x and y grids from the resolved field dimensions and x cell count
and fills each cell with the race-model attacking probability.  The
per-cell probability cp is kept as an explicit parameter, since no claim
depends on its value, only on the grid shape and on determinism. -/
def generate_surface (cp : GenArgs → ℕ → ℕ → ℚ) (a : GenArgs) :
    Surface × List ℚ × List ℚ :=
  let nx := a.n_grid_cells_x
  let ny := n_grid_cells_y a.field_dimen nx
  ((List.range ny).map fun j => (List.range nx).map fun i => cp a j i,
   gridCoords a.field_dimen.1 nx,
   gridCoords a.field_dimen.2 ny)

/-- Modelled from the spec: the default field dimensions of the missing
collaborator, mirroring the session defaults of the analyzer. -/
def defaultFieldDimen : ℚ × ℚ := (106, 68)

/-- Modelled from the spec: the default x cell count of the missing
collaborator, mirroring the session default of the analyzer. -/
def defaultNGridCellsX : ℕ := 50

/-- Modelled from the spec: the collaborator entry point with optional
grid arguments; a call site that omits them gets the collaborator
defaults, which is what the analyzer constructor does. -/
def generate_pitch_control_for_event (cp : GenArgs → ℕ → ℕ → ℚ)
    (event_id : ℕ) (events : Events) (df_dict : DfDict) (params : Params)
    (field_dimen : Option (ℚ × ℚ)) (n_grid_cells_x : Option ℕ) :
    Surface × List ℚ × List ℚ :=
  generate_surface cp
    { event_id := event_id, events := events, df_dict := df_dict,
      params := params, field_dimen := field_dimen.getD defaultFieldDimen,
      n_grid_cells_x := n_grid_cells_x.getD defaultNGridCellsX }

/-- State of a PlayerPitchControlAnalysisPlayer instance after
construction. -/
structure Analyzer where
  df_dict : DfDict
  params : Params
  events : Events
  event_id : ℕ
  team_player_to_analyze : String
  player_to_analyze : PlayerId
  field_dimens : ℚ × ℚ
  n_grid_cells_x : ℕ
  event_pitch_control : Surface
  xgrid : List ℚ
  ygrid : List ℚ
deriving DecidableEq

/-- Embedding of the constructor: stores every argument and immediately
computes the baseline surface, calling the collaborator WITHOUT
forwarding field_dimens and n_grid_cells_x (source lines 79 to 88). -/
def mkAnalyzer (cp : GenArgs → ℕ → ℕ → ℚ) (df_dict : DfDict) (params : Params)
    (events : Events) (event_id : ℕ) (team : String) (player : PlayerId)
    (field_dimens : ℚ × ℚ) (n_grid_cells_x : ℕ) : Analyzer :=
  let r := generate_pitch_control_for_event cp event_id events df_dict params none none
  { df_dict := df_dict, params := params, events := events, event_id := event_id,
    team_player_to_analyze := team, player_to_analyze := player,
    field_dimens := field_dimens, n_grid_cells_x := n_grid_cells_x,
    event_pitch_control := r.1, xgrid := r.2.1, ygrid := r.2.2 }

/-- Ids collected by the loop of _get_players_on_pitch: for each column
of the row whose name contains the vx suffix and whose value is not NaN,
the player id parsed out of the column name. -/
def pitchIds (row : Row) : List String :=
  row.filterMap fun cv =>
    match cv.1 with
    | ColKey.player _ p PField.vx => if cv.2.isSome then some p else none
    | _ => none

/-- Embedding of _get_players_on_pitch (source lines 632 to 642): the
ids parsed from the vx columns of the analyzed team row at the event
Start Frame whose value is not NaN. -/
def get_players_on_pitch (a : Analyzer) : Except AnalysisError (List String) :=
  match alistGet a.events a.event_id with
  | none => Except.error AnalysisError.keyError
  | some evt =>
    match alistGet a.df_dict a.team_player_to_analyze with
    | none => Except.error AnalysisError.keyError
    | some df =>
      match dfLoc df evt.startFrame with
      | none => Except.error AnalysisError.keyError
      | some row => Except.ok (pitchIds row)

/-- Embedding of _validate_inputs (source lines 644 to 656): type check
of the player id, membership check of the team, then presence check of
the player at the event frame; each failure is a distinct error. -/
def validate_inputs (a : Analyzer) : Except AnalysisError Unit :=
  if a.player_to_analyze.isStrOrInt = false then
    Except.error AnalysisError.invalidPlayerError
  else if (a.df_dict.map Prod.fst).contains a.team_player_to_analyze = false then
    Except.error AnalysisError.invalidTeamError
  else
    match get_players_on_pitch a with
    | Except.error e => Except.error e
    | Except.ok ps =>
      if ps.contains a.player_to_analyze.toStr then Except.ok ()
      else Except.error AnalysisError.playerNotOnPitchError

/-- Embedding of calculate_total_space_on_pitch_team (source lines 102
to 109): numpy sum of the surface cells, folded row by row. -/
def npSum (s : Surface) : ℚ :=
  s.foldl (fun acc r => acc + r.foldl (fun x y => x + y) 0) 0

/-- Embedding of calculate_total_space_on_pitch_team: field length times
field width times the cell sum over the stored grid cell count. -/
def calculate_total_space_on_pitch_team (a : Analyzer) (s : Surface) : ℚ :=
  a.field_dimens.1 * a.field_dimens.2 * npSum s /
    ((a.xgrid.length : ℚ) * (a.ygrid.length : ℚ))

/-- Shape of a surface as numpy sees it: the length of each row. -/
def surfaceShape (s : Surface) : List ℕ := s.map List.length

/-- Embedding of the numpy elementwise subtraction of two surfaces; a
shape mismatch between two full 2D arrays (as arises between grids of
different cell counts) raises a broadcast error in numpy. -/
def npSub (x y : Surface) : Except AnalysisError Surface :=
  if surfaceShape x = surfaceShape y then
    Except.ok (List.zipWith (fun r1 r2 => List.zipWith (fun p q => p - q) r1 r2) x y)
  else Except.error AnalysisError.shapeBroadcastError

/-- Tracking copy built by calculate_pitch_control_replaced_velocity
(source lines 142 to 154): the analyzed team table with the vx and vy
cells of the analyzed player overwritten at the event frame. -/
def replacedVelocityDict (a : Analyzer) (frame : ℕ) (vx vy : ℚ) : DfDict :=
  replaceTeamDf a.df_dict a.team_player_to_analyze fun df =>
    dfAt (dfAt df frame (pcol a.team_player_to_analyze a.player_to_analyze PField.vx) (some vx))
      frame (pcol a.team_player_to_analyze a.player_to_analyze PField.vy) (some vy)

/-- Tracking copy built by calculate_pitch_control_without_player
(source lines 185 to 205): the four cells of the analyzed player set to
NaN at the event frame. -/
def withoutPlayerDict (a : Analyzer) (frame : ℕ) : DfDict :=
  replaceTeamDf a.df_dict a.team_player_to_analyze fun df =>
    dfAt (dfAt (dfAt (dfAt df
      frame (pcol a.team_player_to_analyze a.player_to_analyze PField.x) none)
      frame (pcol a.team_player_to_analyze a.player_to_analyze PField.y) none)
      frame (pcol a.team_player_to_analyze a.player_to_analyze PField.vx) none)
      frame (pcol a.team_player_to_analyze a.player_to_analyze PField.vy) none

/-- Tracking copy built by calculate_pitch_control_new_location (source
lines 267 to 287), translated exactly as written: the x and y cells are
assigned the raw relative_x_change and relative_y_change values, and the
vx and vy cells are assigned the replacement velocity unconditionally,
with no dependence on the replace_velocity flag. -/
def newLocationDict (a : Analyzer) (frame : ℕ) (relX relY vx vy : ℚ) : DfDict :=
  replaceTeamDf a.df_dict a.team_player_to_analyze fun df =>
    dfAt (dfAt (dfAt (dfAt df
      frame (pcol a.team_player_to_analyze a.player_to_analyze PField.x) (some relX))
      frame (pcol a.team_player_to_analyze a.player_to_analyze PField.y) (some relY))
      frame (pcol a.team_player_to_analyze a.player_to_analyze PField.vx) (some vx))
      frame (pcol a.team_player_to_analyze a.player_to_analyze PField.vy) (some vy)

/-- Collaborator arguments of the movement perturbation: the rewritten
tracking copy together with the forwarded session grid parameters. -/
def movementGenArgs (a : Analyzer) (frame : ℕ) (vx vy : ℚ) : GenArgs :=
  { event_id := a.event_id, events := a.events,
    df_dict := replacedVelocityDict a frame vx vy, params := a.params,
    field_dimen := a.field_dimens, n_grid_cells_x := a.n_grid_cells_x }

/-- Collaborator arguments of the presence perturbation. -/
def presenceGenArgs (a : Analyzer) (frame : ℕ) : GenArgs :=
  { event_id := a.event_id, events := a.events,
    df_dict := withoutPlayerDict a frame, params := a.params,
    field_dimen := a.field_dimens, n_grid_cells_x := a.n_grid_cells_x }

/-- Collaborator arguments of the location perturbation. -/
def locationGenArgs (a : Analyzer) (frame : ℕ) (relX relY vx vy : ℚ) : GenArgs :=
  { event_id := a.event_id, events := a.events,
    df_dict := newLocationDict a frame relX relY vx vy, params := a.params,
    field_dimen := a.field_dimens, n_grid_cells_x := a.n_grid_cells_x }

/-- Embedding of calculate_pitch_control_replaced_velocity (source
lines 111 to 164): validate, resolve the event Start Frame, rewrite the
velocity cells in a copy, regenerate the surface with the session grid
parameters forwarded. -/
def calculate_pitch_control_replaced_velocity (cp : GenArgs → ℕ → ℕ → ℚ)
    (a : Analyzer) (vx vy : ℚ) :
    Except AnalysisError (Surface × List ℚ × List ℚ) :=
  match validate_inputs a with
  | Except.error e => Except.error e
  | Except.ok _ =>
    match alistGet a.events a.event_id with
    | none => Except.error AnalysisError.keyError
    | some evt => Except.ok (generate_surface cp (movementGenArgs a evt.startFrame vx vy))

/-- Embedding of calculate_pitch_control_without_player (source lines
166 to 215). -/
def calculate_pitch_control_without_player (cp : GenArgs → ℕ → ℕ → ℚ)
    (a : Analyzer) : Except AnalysisError (Surface × List ℚ × List ℚ) :=
  match validate_inputs a with
  | Except.error e => Except.error e
  | Except.ok _ =>
    match alistGet a.events a.event_id with
    | none => Except.error AnalysisError.keyError
    | some evt => Except.ok (generate_surface cp (presenceGenArgs a evt.startFrame))

/-- Warning text of the ambiguous zero-velocity relocation (source
lines 259 to 262). -/
def warnNoVelocity : String :=
  "You have not specified a new velocity vector for the player. All analysis will assume that the player is stationary in his/her new location"

/-- Embedding of calculate_pitch_control_new_location (source lines 217
to 297): validate, maybe warn, rewrite the four cells in a copy,
regenerate the surface.  The emitted warnings are returned alongside the
surface triple; execution always continues past the warning. -/
def calculate_pitch_control_new_location (cp : GenArgs → ℕ → ℕ → ℚ)
    (a : Analyzer) (relX relY : ℚ) (replaceVelocity : Bool) (vx vy : ℚ) :
    Except AnalysisError ((Surface × List ℚ × List ℚ) × List String) :=
  match validate_inputs a with
  | Except.error e => Except.error e
  | Except.ok _ =>
    let warns :=
      if replaceVelocity && decide (vx = 0) && decide (vy = 0) then [warnNoVelocity] else []
    match alistGet a.events a.event_id with
    | none => Except.error AnalysisError.keyError
    | some evt =>
      Except.ok (generate_surface cp (locationGenArgs a evt.startFrame relX relY vx vy), warns)

/-- Embedding of calculate_pitch_control_difference (source lines 299
to 390): dispatch on replace_function, reject any other mode, subtract
the perturbed surface from the stored baseline elementwise, and return
the grids of the perturbed computation. -/
def calculate_pitch_control_difference (cp : GenArgs → ℕ → ℕ → ℚ)
    (a : Analyzer) (replaceVelocity : Bool) (vx vy relX relY : ℚ)
    (replace_function : String) :
    Except AnalysisError (Surface × List ℚ × List ℚ) :=
  let edited :=
    if replace_function = "movement" then
      calculate_pitch_control_replaced_velocity cp a vx vy
    else if replace_function = "presence" then
      calculate_pitch_control_without_player cp a
    else if replace_function = "location" then
      match calculate_pitch_control_new_location cp a relX relY replaceVelocity vx vy with
      | Except.error e => Except.error e
      | Except.ok r => Except.ok r.1
    else Except.error AnalysisError.invalidModeError
  match edited with
  | Except.error e => Except.error e
  | Except.ok (s, xg, yg) =>
    match npSub a.event_pitch_control s with
    | Except.error e => Except.error e
    | Except.ok d => Except.ok (d, xg, yg)

/-- Embedding of calculate_space_created (source lines 392 to 455):
read the possessing team of the event, compute the difference surface,
integrate it, and negate the result when the analyzed team is not the
possessing team. -/
def calculate_space_created (cp : GenArgs → ℕ → ℕ → ℚ) (a : Analyzer)
    (vx vy relX relY : ℚ) (replaceVelocity : Bool) (replace_function : String) :
    Except AnalysisError ℚ :=
  match alistGet a.events a.event_id with
  | none => Except.error AnalysisError.keyError
  | some evt =>
    match calculate_pitch_control_difference cp a replaceVelocity vx vy relX relY replace_function with
    | Except.error e => Except.error e
    | Except.ok (d, _, _) =>
      let change := calculate_total_space_on_pitch_team a d
      if evt.team = a.team_player_to_analyze then Except.ok change
      else Except.ok (-1 * change)

/-
State-passing forms of the operations.  The Python methods never assign
an attribute of self: every write targets tmp_df_dict, a fresh dict copy
whose rewritten entry is itself a fresh DataFrame copy.  The faithful
translation therefore returns the analyzer value unchanged alongside
the result.
-/

/-- State-passing form of the movement perturbation. -/
def replaced_velocity_run (cp : GenArgs → ℕ → ℕ → ℚ) (a : Analyzer) (vx vy : ℚ) :
    Except AnalysisError (Surface × List ℚ × List ℚ) × Analyzer :=
  (calculate_pitch_control_replaced_velocity cp a vx vy, a)

/-- State-passing form of the presence perturbation. -/
def without_player_run (cp : GenArgs → ℕ → ℕ → ℚ) (a : Analyzer) :
    Except AnalysisError (Surface × List ℚ × List ℚ) × Analyzer :=
  (calculate_pitch_control_without_player cp a, a)

/-- State-passing form of the location perturbation. -/
def new_location_run (cp : GenArgs → ℕ → ℕ → ℚ) (a : Analyzer)
    (relX relY : ℚ) (replaceVelocity : Bool) (vx vy : ℚ) :
    Except AnalysisError ((Surface × List ℚ × List ℚ) × List String) × Analyzer :=
  (calculate_pitch_control_new_location cp a relX relY replaceVelocity vx vy, a)

/-- State-passing form of the difference wrapper. -/
def difference_run (cp : GenArgs → ℕ → ℕ → ℚ) (a : Analyzer)
    (replaceVelocity : Bool) (vx vy relX relY : ℚ) (replace_function : String) :
    Except AnalysisError (Surface × List ℚ × List ℚ) × Analyzer :=
  (calculate_pitch_control_difference cp a replaceVelocity vx vy relX relY replace_function, a)

/-- State-passing form of the space wrapper. -/
def space_created_run (cp : GenArgs → ℕ → ℕ → ℚ) (a : Analyzer)
    (vx vy relX relY : ℚ) (replaceVelocity : Bool) (replace_function : String) :
    Except AnalysisError ℚ × Analyzer :=
  (calculate_space_created cp a vx vy relX relY replaceVelocity replace_function, a)

/-- Frame index of a tracking table. -/
def dfIndex (df : DFrame) : List ℕ := df.map Prod.fst

/-- Embedding of save_match_clip of Metrica_Viz (source lines 170 to
246).  Rendering is presentation and out of scope per the spec; the
model keeps the index comparison that guards the frame loop (an assert
in the source) and represents the emitted clip as the list of frame
indices written, one output frame per index row.  Unpacking a df_dict
without exactly two teams raises before the check and is embedded as
keyError. -/
def save_match_clip (d : DfDict) : List ℕ × Except AnalysisError Unit :=
  match d with
  | [e1, e2] =>
    if dfIndex e1.2 = dfIndex e2.2 then (dfIndex e1.2, Except.ok ())
    else ([], Except.error AnalysisError.mismatchedFrameIndexError)
  | _ => ([], Except.error AnalysisError.keyError)

deriving instance DecidableEq for Except

/-
Concrete sessions used by the witnesses and counterexamples below.
-/

/-- Constant race-model probability (the degenerate 0.5 default of the
spec), used to instantiate the abstract per-cell probability. -/
def cp0 : GenArgs → ℕ → ℕ → ℚ := fun _ _ _ => 1 / 2

/-- Home row at frame 100: player 7 at (5, 3) moving with (1, 2). -/
def rowHome : Row :=
  [ (ColKey.player "Home" "7" PField.x, some 5),
    (ColKey.player "Home" "7" PField.y, some 3),
    (ColKey.player "Home" "7" PField.vx, some 1),
    (ColKey.player "Home" "7" PField.vy, some 2),
    (ColKey.ball_x, some 0), (ColKey.ball_y, some 0), (ColKey.time, some 4) ]

/-- Home tracking table with the single frame 100. -/
def homeDf : DFrame := [(100, rowHome)]

/-- Away row at frame 100: player 9 at (-5, 0), stationary. -/
def rowAway : Row :=
  [ (ColKey.player "Away" "9" PField.x, some (-5)),
    (ColKey.player "Away" "9" PField.y, some 0),
    (ColKey.player "Away" "9" PField.vx, some 0),
    (ColKey.player "Away" "9" PField.vy, some 0),
    (ColKey.ball_x, some 0), (ColKey.ball_y, some 0), (ColKey.time, some 4) ]

/-- Away tracking table with the single frame 100. -/
def awayDf : DFrame := [(100, rowAway)]

/-- Two-team tracking dictionary. -/
def dfDictA : DfDict := [("Home", homeDf), ("Away", awayDf)]

/-- Events table: event 0 starts at frame 100 with Home in possession. -/
def eventsA : Events := [(0, { startFrame := 100, team := "Home" })]

/-- Model parameters of the test sessions. -/
def paramsA : Params := []

/-- Session analyzing Home player 7 at event 0, constructed with the
default grid parameters. -/
def analyzerA : Analyzer :=
  mkAnalyzer cp0 dfDictA paramsA eventsA 0 "Home" (PlayerId.int 7) (106, 68) 50

/-- The same session constructed with a non-default x cell count. -/
def analyzerB : Analyzer :=
  mkAnalyzer cp0 dfDictA paramsA eventsA 0 "Home" (PlayerId.int 7) (106, 68) 60

/-
Helper lemmas about the association-list embedding.
-/

/-- Writing back the value an association list already holds at a key
leaves the list unchanged. -/
theorem alistSet_get_self {α β : Type} [DecidableEq α] :
    ∀ (l : List (α × β)) (k : α) (v : β), alistGet l k = some v → alistSet l k v = l
  | [], k, v, h => by simp [alistGet] at h
  | (k1, v1) :: t, k, v, h => by
    by_cases hk : k1 = k
    · subst hk
      simp [alistGet] at h
      simp [alistSet, h]
    · simp [alistGet, hk] at h
      simp [alistSet, hk, alistSet_get_self t k v h]

/-- Writing back the cell value a table already holds leaves the table
unchanged. -/
theorem dfAt_get_self :
    ∀ (df : DFrame) (f : ℕ) (row : Row) (c : ColKey) (v : Option ℚ),
      dfLoc df f = some row → rowGet row c = some v → dfAt df f c v = df
  | [], f, row, c, v, h1, _ => by simp [dfLoc, alistGet] at h1
  | (f1, r1) :: t, f, row, c, v, h1, h2 => by
    by_cases hf : f1 = f
    · subst hf
      simp [dfLoc, alistGet] at h1
      subst h1
      simp [dfAt, alistSet_get_self r1 c v h2]
    · simp [dfLoc, alistGet, hf] at h1
      simp [dfAt, hf, dfAt_get_self t f row c v h1 h2]

/-- Rewriting the table of a team that does not occur leaves the
dictionary unchanged. -/
theorem replaceTeamDf_not_mem :
    ∀ (d : DfDict) (team : String) (g : DFrame → DFrame),
      team ∉ d.map Prod.fst → replaceTeamDf d team g = d
  | [], _, _, _ => rfl
  | (k, df) :: t, team, g, h => by
    have hk : ¬(k = team) := by
      intro hk
      exact h (by simp [hk])
    have ht : team ∉ t.map Prod.fst := by
      intro hmem
      exact h (by simp [hmem])
    show (k, if k = team then g df else df) :: replaceTeamDf t team g = (k, df) :: t
    rw [if_neg hk, replaceTeamDf_not_mem t team g ht]

/-- When the dictionary keys are distinct and the rewrite fixes the
stored table of the team, the dictionary is unchanged. -/
theorem replaceTeamDf_id :
    ∀ (d : DfDict) (team : String) (g : DFrame → DFrame) (df : DFrame),
      (d.map Prod.fst).Nodup → alistGet d team = some df → g df = df →
      replaceTeamDf d team g = d
  | [], team, g, df, _, h, _ => by simp [alistGet] at h
  | (k, df1) :: t, team, g, df, hnd, h, hg => by
    have hnotin : k ∉ t.map Prod.fst := (List.nodup_cons.mp hnd).1
    have hnd2 : (t.map Prod.fst).Nodup := (List.nodup_cons.mp hnd).2
    show (k, if k = team then g df1 else df1) :: replaceTeamDf t team g = (k, df1) :: t
    by_cases hk : k = team
    · subst hk
      have hdf : df1 = df := by simpa [alistGet] using h
      subst hdf
      rw [if_pos rfl, hg, replaceTeamDf_not_mem t k g hnotin]
    · have h2 : alistGet t team = some df := by simpa [alistGet, hk] using h
      rw [if_neg hk, replaceTeamDf_id t team g df hnd2 h2 hg]

/-- Lookup of any other team is unaffected by the rewrite of one team
entry. -/
theorem replaceTeamDf_get_ne :
    ∀ (d : DfDict) (team t : String) (g : DFrame → DFrame), t ≠ team →
      alistGet (replaceTeamDf d team g) t = alistGet d t
  | [], _, _, _, _ => rfl
  | (k, df) :: tl, team, t, g, h => by
    show alistGet ((k, if k = team then g df else df) :: replaceTeamDf tl team g) t =
      alistGet ((k, df) :: tl) t
    by_cases hkt : k = t
    · subst hkt
      have hk : ¬(k = team) := fun hh => h (hh ▸ rfl)
      rw [if_neg hk]
      simp [alistGet]
    · simp [alistGet, hkt]
      exact replaceTeamDf_get_ne tl team t g h

/-
Lemmas about the surface arithmetic.
-/

/-- Elementwise subtraction of a row from itself gives a row of zeros. -/
theorem zipWith_sub_self :
    ∀ (r : List ℚ), List.zipWith (fun p q => p - q) r r = r.map fun _ => (0 : ℚ)
  | [] => rfl
  | p :: t => by simp [zipWith_sub_self t]

/-- Elementwise subtraction of a surface from itself gives the zero
surface of the same shape. -/
theorem surface_sub_self :
    ∀ (s : Surface),
      List.zipWith (fun r1 r2 => List.zipWith (fun p q => p - q) r1 r2) s s =
        s.map fun r => r.map fun _ => (0 : ℚ)
  | [] => rfl
  | r :: t => by simp [zipWith_sub_self r, surface_sub_self t]

/-- Zero surface with the shape of a given surface. -/
def zeroOf (s : Surface) : Surface := s.map fun r => r.map fun _ => (0 : ℚ)

/-- Numpy subtraction of a surface from itself succeeds and gives the
zero surface of the same shape. -/
theorem npSub_self (s : Surface) : npSub s s = Except.ok (zeroOf s) := by
  simp [npSub, zeroOf, surface_sub_self s]

/-- Folding addition over a row of zeros returns the accumulator. -/
theorem foldl_add_zeros :
    ∀ (r : List ℚ) (acc : ℚ), ((r.map fun _ => (0 : ℚ)).foldl (fun x y => x + y) acc) = acc
  | [], acc => rfl
  | p :: t, acc => by
    show ((t.map fun _ => (0 : ℚ)).foldl (fun x y => x + y) (acc + 0)) = acc
    rw [add_zero]
    exact foldl_add_zeros t acc

/-- The cell sum of a zero surface is zero. -/
theorem npSum_zeros : ∀ (s : Surface), npSum ((s.map fun r => r.map fun _ => (0 : ℚ))) = 0 := by
  have aux : ∀ (s : Surface) (acc : ℚ),
      ((s.map fun r => r.map fun _ => (0 : ℚ)).foldl
        (fun acc2 r => acc2 + r.foldl (fun x y => x + y) 0) acc) = acc := by
    intro s
    induction s with
    | nil => intro acc; rfl
    | cons r t ih =>
      intro acc
      show ((t.map fun r => r.map fun _ => (0 : ℚ)).foldl
        (fun acc2 r2 => acc2 + r2.foldl (fun x y => x + y) 0)
        (acc + (r.map fun _ => (0 : ℚ)).foldl (fun x y => x + y) 0)) = acc
      rw [foldl_add_zeros r 0, add_zero]
      exact ih acc
  intro s
  exact aux s 0

/-- Folding addition over a row equals adding its sum. -/
theorem foldl_add_eq_sum :
    ∀ (r : List ℚ) (acc : ℚ), r.foldl (fun x y => x + y) acc = acc + r.sum
  | [], acc => by simp
  | p :: t, acc => by
    simp [foldl_add_eq_sum t (acc + p)]
    ring

/-- The embedded numpy cell sum is the sum of the row sums. -/
theorem npSum_eq_sum (s : Surface) : npSum s = (s.map List.sum).sum := by
  have aux : ∀ (s : Surface) (acc : ℚ),
      (s.foldl (fun acc2 r => acc2 + r.foldl (fun x y => x + y) 0) acc) =
        acc + (s.map List.sum).sum := by
    intro s
    induction s with
    | nil => intro acc; simp
    | cons r t ih =>
      intro acc
      simp [ih, foldl_add_eq_sum r 0]
      ring
  simpa [npSum] using aux s 0

/-- The integrated space of a zero surface is zero. -/
theorem total_space_zeros (a : Analyzer) (s : Surface) :
    calculate_total_space_on_pitch_team a (zeroOf s) = 0 := by
  unfold calculate_total_space_on_pitch_team zeroOf
  rw [npSum_zeros s, mul_zero, zero_div]

/-
Lemmas connecting the players-on-pitch scan to the claim-side notion of
a defined velocity cell.
-/

/-- Wellformedness of a row for one table: every player column belongs
to the given team. -/
def colTeamOk (team : String) : ColKey → Bool
  | ColKey.player t _ _ => decide (t = team)
  | _ => true

/-- Claim-side reading of presence: the velocity cell of the column
exists and is not NaN. -/
def velocityDefined (row : Row) (c : ColKey) : Bool :=
  ((rowGet row c).getD none).isSome

/-- Reduction of the scan over a vx column holding a value. -/
theorem pitchIds_cons_vx_some (tm p : String) (q : ℚ) (t : Row) :
    pitchIds ((ColKey.player tm p PField.vx, some q) :: t) = p :: pitchIds t := rfl

/-- Reduction of the scan over a NaN vx column. -/
theorem pitchIds_cons_vx_none (tm p : String) (t : Row) :
    pitchIds ((ColKey.player tm p PField.vx, none) :: t) = pitchIds t := rfl

/-- Reduction of the scan over an x column. -/
theorem pitchIds_cons_x (tm p : String) (v : Option ℚ) (t : Row) :
    pitchIds ((ColKey.player tm p PField.x, v) :: t) = pitchIds t := rfl

/-- Reduction of the scan over a y column. -/
theorem pitchIds_cons_y (tm p : String) (v : Option ℚ) (t : Row) :
    pitchIds ((ColKey.player tm p PField.y, v) :: t) = pitchIds t := rfl

/-- Reduction of the scan over a vy column. -/
theorem pitchIds_cons_vy (tm p : String) (v : Option ℚ) (t : Row) :
    pitchIds ((ColKey.player tm p PField.vy, v) :: t) = pitchIds t := rfl

/-- Reduction of the scan over the ball x column. -/
theorem pitchIds_cons_ball_x (v : Option ℚ) (t : Row) :
    pitchIds ((ColKey.ball_x, v) :: t) = pitchIds t := rfl

/-- Reduction of the scan over the ball y column. -/
theorem pitchIds_cons_ball_y (v : Option ℚ) (t : Row) :
    pitchIds ((ColKey.ball_y, v) :: t) = pitchIds t := rfl

/-- Reduction of the scan over the time column. -/
theorem pitchIds_cons_time (v : Option ℚ) (t : Row) :
    pitchIds ((ColKey.time, v) :: t) = pitchIds t := rfl

/-- One-step reduction of a row cell lookup. -/
theorem rowGet_cons (c1 : ColKey) (v : Option ℚ) (t : Row) (c : ColKey) :
    rowGet ((c1, v) :: t) c = if c1 = c then some v else rowGet t c := rfl

/-- A player whose vx column does not occur in the row is not collected
by the scan. -/
theorem not_mem_pitchIds :
    ∀ (row : Row) (team pstr : String),
      (ColKey.player team pstr PField.vx) ∉ row.map Prod.fst →
      (∀ cv ∈ row, colTeamOk team cv.1 = true) →
      pstr ∉ pitchIds row
  | [], _, _, _, _ => by simp [pitchIds]
  | (c, v) :: t, team, pstr, hmem, hwf => by
    have hct : c ≠ ColKey.player team pstr PField.vx := by
      intro hc
      exact hmem (by simp [hc])
    have hmem2 : (ColKey.player team pstr PField.vx) ∉ t.map Prod.fst := by
      intro hm
      exact hmem (by simp [hm])
    have hwf2 : ∀ cv ∈ t, colTeamOk team cv.1 = true := fun cv hcv => hwf cv (by simp [hcv])
    have ih := not_mem_pitchIds t team pstr hmem2 hwf2
    have hwfc : colTeamOk team c = true := hwf (c, v) (by simp)
    cases c with
    | player t2 p f =>
      have ht2 : t2 = team := by simpa [colTeamOk] using hwfc
      cases f with
      | vx =>
        have hp : ¬(p = pstr) := by
          intro hpp
          exact hct (by rw [ht2, hpp])
        cases v with
        | none => rw [pitchIds_cons_vx_none]; exact ih
        | some q =>
          rw [pitchIds_cons_vx_some]
          intro hor
          rcases List.mem_cons.mp hor with h | h
          · exact hp h.symm
          · exact ih h
      | x => rw [pitchIds_cons_x]; exact ih
      | y => rw [pitchIds_cons_y]; exact ih
      | vy => rw [pitchIds_cons_vy]; exact ih
    | ball_x => rw [pitchIds_cons_ball_x]; exact ih
    | ball_y => rw [pitchIds_cons_ball_y]; exact ih
    | time => rw [pitchIds_cons_time]; exact ih

/-- Under distinct column keys all belonging to the team, the scan
collects a player exactly when the vx cell of that player exists and is
not NaN, the claim-side reading of being on the pitch. -/
theorem mem_pitchIds_iff :
    ∀ (row : Row) (team pstr : String),
      (row.map Prod.fst).Nodup →
      (∀ cv ∈ row, colTeamOk team cv.1 = true) →
      (pstr ∈ pitchIds row ↔
        velocityDefined row (ColKey.player team pstr PField.vx) = true)
  | [], _, _, _, _ => by simp [pitchIds, velocityDefined, rowGet, alistGet]
  | (c, v) :: t, team, pstr, hnd, hwf => by
    have hnotin : c ∉ t.map Prod.fst := (List.nodup_cons.mp hnd).1
    have hnd2 : (t.map Prod.fst).Nodup := (List.nodup_cons.mp hnd).2
    have hwf2 : ∀ cv ∈ t, colTeamOk team cv.1 = true := fun cv hcv => hwf cv (by simp [hcv])
    have ih := mem_pitchIds_iff t team pstr hnd2 hwf2
    have hwfc : colTeamOk team c = true := hwf (c, v) (by simp)
    cases c with
    | player t2 p f =>
      have ht2 : t2 = team := by simpa [colTeamOk] using hwfc
      cases f with
      | vx =>
        by_cases hp : p = pstr
        · cases v with
          | none =>
            rw [pitchIds_cons_vx_none]
            have hnotin2 : (ColKey.player team pstr PField.vx) ∉ t.map Prod.fst := by
              rw [← ht2, ← hp]
              exact hnotin
            have hni := not_mem_pitchIds t team pstr hnotin2 hwf2
            unfold velocityDefined
            rw [rowGet_cons, if_pos (by rw [ht2, hp])]
            simp [hni]
          | some q =>
            rw [pitchIds_cons_vx_some]
            unfold velocityDefined
            rw [rowGet_cons, if_pos (by rw [ht2, hp])]
            simp [hp]
        · have hkey : ¬(ColKey.player t2 p PField.vx = ColKey.player team pstr PField.vx) := by
            intro hk
            injection hk with h1 h2 h3
            exact hp h2
          cases v with
          | none =>
            rw [pitchIds_cons_vx_none]
            unfold velocityDefined
            rw [rowGet_cons, if_neg hkey]
            exact ih
          | some q =>
            rw [pitchIds_cons_vx_some]
            unfold velocityDefined
            rw [rowGet_cons, if_neg hkey]
            constructor
            · intro hor
              rcases List.mem_cons.mp hor with h | h
              · exact absurd h.symm hp
              · exact ih.mp h
            · intro hd
              exact List.mem_cons.mpr (Or.inr (ih.mpr hd))
      | x =>
        rw [pitchIds_cons_x]
        unfold velocityDefined
        rw [rowGet_cons, if_neg (by
          intro hk
          injection hk with h1 h2 h3
          exact PField.noConfusion h3)]
        exact ih
      | y =>
        rw [pitchIds_cons_y]
        unfold velocityDefined
        rw [rowGet_cons, if_neg (by
          intro hk
          injection hk with h1 h2 h3
          exact PField.noConfusion h3)]
        exact ih
      | vy =>
        rw [pitchIds_cons_vy]
        unfold velocityDefined
        rw [rowGet_cons, if_neg (by
          intro hk
          injection hk with h1 h2 h3
          exact PField.noConfusion h3)]
        exact ih
    | ball_x =>
      rw [pitchIds_cons_ball_x]
      unfold velocityDefined
      rw [rowGet_cons, if_neg (fun hk => ColKey.noConfusion hk)]
      exact ih
    | ball_y =>
      rw [pitchIds_cons_ball_y]
      unfold velocityDefined
      rw [rowGet_cons, if_neg (fun hk => ColKey.noConfusion hk)]
      exact ih
    | time =>
      rw [pitchIds_cons_time]
      unfold velocityDefined
      rw [rowGet_cons, if_neg (fun hk => ColKey.noConfusion hk)]
      exact ih

/-
Claim theorems.
-/

/-- Collaborator arguments with the default grid parameters resolved,
as produced by a call that omits both optional grid arguments. -/
def defaultGenArgs (event_id : ℕ) (events : Events) (df : DfDict) (params : Params) :
    GenArgs :=
  { event_id := event_id, events := events, df_dict := df, params := params,
    field_dimen := defaultFieldDimen, n_grid_cells_x := defaultNGridCellsX }

/-- C3: the baseline surface stored at construction is generated without
forwarding the session field_dimens and n_grid_cells_x, so the
collaborator defaults apply to it, whereas the movement, presence and
location perturbations forward both session parameters; hence for every
session constructed with non-default grid parameters, the baseline and
each perturbed surface are computed with different grid parameters. -/
theorem C3_baseline_grid_defaults (cp : GenArgs → ℕ → ℕ → ℚ) (df : DfDict)
    (params : Params) (events : Events) (event_id : ℕ) (team : String)
    (player : PlayerId) (fd : ℚ × ℚ) (n : ℕ) (a : Analyzer)
    (ha : a = mkAnalyzer cp df params events event_id team player fd n) :
    (a.event_pitch_control =
      (generate_surface cp (defaultGenArgs event_id events df params)).1)
    ∧ (∀ frame vx vy,
        ((movementGenArgs a frame vx vy).field_dimen,
         (movementGenArgs a frame vx vy).n_grid_cells_x) = (fd, n))
    ∧ (∀ frame,
        ((presenceGenArgs a frame).field_dimen,
         (presenceGenArgs a frame).n_grid_cells_x) = (fd, n))
    ∧ (∀ frame rx ry vx vy,
        ((locationGenArgs a frame rx ry vx vy).field_dimen,
         (locationGenArgs a frame rx ry vx vy).n_grid_cells_x) = (fd, n))
    ∧ ((fd, n) ≠ (defaultFieldDimen, defaultNGridCellsX) →
        ∀ frame vx vy rx ry,
          ((movementGenArgs a frame vx vy).field_dimen,
           (movementGenArgs a frame vx vy).n_grid_cells_x) ≠
            (defaultFieldDimen, defaultNGridCellsX)
          ∧ ((presenceGenArgs a frame).field_dimen,
             (presenceGenArgs a frame).n_grid_cells_x) ≠
            (defaultFieldDimen, defaultNGridCellsX)
          ∧ ((locationGenArgs a frame rx ry vx vy).field_dimen,
             (locationGenArgs a frame rx ry vx vy).n_grid_cells_x) ≠
            (defaultFieldDimen, defaultNGridCellsX)) := by
  subst ha
  exact ⟨rfl, fun _ _ _ => rfl, fun _ => rfl, fun _ _ _ _ _ => rfl,
    fun hne _ _ _ _ _ => ⟨hne, hne, hne⟩⟩

/-- Witness for C3 at a session with non-default grid parameters. -/
theorem C3_baseline_grid_defaults_witness :
    ((movementGenArgs
        (mkAnalyzer cp0 dfDictA paramsA eventsA 0 "Home" (PlayerId.int 7) (100, 60) 40)
        100 0 0).field_dimen,
     (movementGenArgs
        (mkAnalyzer cp0 dfDictA paramsA eventsA 0 "Home" (PlayerId.int 7) (100, 60) 40)
        100 0 0).n_grid_cells_x) ≠ (defaultFieldDimen, defaultNGridCellsX)
    ∧ (mkAnalyzer cp0 dfDictA paramsA eventsA 0 "Home" (PlayerId.int 7)
        (100, 60) 40).event_pitch_control =
      (generate_surface cp0 (defaultGenArgs 0 eventsA dfDictA paramsA)).1 := by
  have h := C3_baseline_grid_defaults cp0 dfDictA paramsA eventsA 0 "Home"
    (PlayerId.int 7) (100, 60) 40 _ rfl
  exact ⟨(h.2.2.2.2 (by with_unfolding_all decide) 100 0 0 0 0).1, h.1⟩

/-- Spec-side composition of the difference wrapper: take the result of
a perturbation and subtract its surface from the stored baseline,
keeping the grids of the perturbed computation. -/
def baselineMinus (a : Analyzer) (r : Except AnalysisError (Surface × List ℚ × List ℚ)) :
    Except AnalysisError (Surface × List ℚ × List ℚ) :=
  match r with
  | Except.error e => Except.error e
  | Except.ok (s, xg, yg) =>
    match npSub a.event_pitch_control s with
    | Except.error e => Except.error e
    | Except.ok d => Except.ok (d, xg, yg)

/-- C5: for any mode outside movement, presence and location the
difference wrapper fails with the invalid-mode error (the Except
embedding produces the error without any perturbed surface entering the
result); for each valid mode it dispatches to the corresponding
perturbation and returns baseline minus perturbed elementwise with the
grids of the perturbed computation. -/
theorem C5_difference_dispatch (cp : GenArgs → ℕ → ℕ → ℚ) (a : Analyzer)
    (rv : Bool) (vx vy rx ry : ℚ) (mode : String) :
    (¬(mode = "movement" ∨ mode = "presence" ∨ mode = "location") →
      calculate_pitch_control_difference cp a rv vx vy rx ry mode =
        Except.error AnalysisError.invalidModeError)
    ∧ (mode = "movement" →
        calculate_pitch_control_difference cp a rv vx vy rx ry mode =
          baselineMinus a (calculate_pitch_control_replaced_velocity cp a vx vy))
    ∧ (mode = "presence" →
        calculate_pitch_control_difference cp a rv vx vy rx ry mode =
          baselineMinus a (calculate_pitch_control_without_player cp a))
    ∧ (mode = "location" →
        calculate_pitch_control_difference cp a rv vx vy rx ry mode =
          baselineMinus a
            (Except.map Prod.fst
              (calculate_pitch_control_new_location cp a rx ry rv vx vy))) := by
  refine ⟨?_, ?_, ?_, ?_⟩
  · intro h
    have h1 : ¬(mode = "movement") := fun hh => h (Or.inl hh)
    have h2 : ¬(mode = "presence") := fun hh => h (Or.inr (Or.inl hh))
    have h3 : ¬(mode = "location") := fun hh => h (Or.inr (Or.inr hh))
    simp [calculate_pitch_control_difference, h1, h2, h3]
  · intro h
    subst h
    simp only [calculate_pitch_control_difference, baselineMinus]
    rfl
  · intro h
    subst h
    simp only [calculate_pitch_control_difference, baselineMinus]
    rfl
  · intro h
    subst h
    simp only [calculate_pitch_control_difference, baselineMinus]
    cases hres : calculate_pitch_control_new_location cp a rx ry rv vx vy with
    | error e => simp [hres, Except.map]
    | ok r => simp [hres, Except.map]

/-- Witness for C5 exercising the invalid mode and the three dispatch
branches at a concrete session. -/
theorem C5_difference_dispatch_witness :
    calculate_pitch_control_difference cp0 analyzerA false 0 0 0 0 "flight" =
      Except.error AnalysisError.invalidModeError
    ∧ calculate_pitch_control_difference cp0 analyzerA false 0 0 0 0 "movement" =
        baselineMinus analyzerA (calculate_pitch_control_replaced_velocity cp0 analyzerA 0 0)
    ∧ calculate_pitch_control_difference cp0 analyzerA false 0 0 0 0 "presence" =
        baselineMinus analyzerA (calculate_pitch_control_without_player cp0 analyzerA)
    ∧ calculate_pitch_control_difference cp0 analyzerA false 0 0 0 0 "location" =
        baselineMinus analyzerA
          (Except.map Prod.fst
            (calculate_pitch_control_new_location cp0 analyzerA 0 0 false 0 0)) := by
  refine ⟨?_, ?_, ?_, ?_⟩
  · exact (C5_difference_dispatch cp0 analyzerA false 0 0 0 0 "flight").1 (by decide)
  · exact (C5_difference_dispatch cp0 analyzerA false 0 0 0 0 "movement").2.1 rfl
  · exact (C5_difference_dispatch cp0 analyzerA false 0 0 0 0 "presence").2.2.1 rfl
  · exact (C5_difference_dispatch cp0 analyzerA false 0 0 0 0 "location").2.2.2 rfl

/-- C8: every perturbation operation and wrapper is mutation-free and
idempotent in the state-passing embedding: the analyzer value it
returns is the one it received, a repeated call on the returned state
gives the identical result pair, and the tracking copy each perturbation
builds rewrites only the analyzed team entry, every other team lookup
being unchanged. -/
theorem C8_operations_pure (cp : GenArgs → ℕ → ℕ → ℚ) (a : Analyzer)
    (vx vy rx ry : ℚ) (rv : Bool) (mode : String) (frame : ℕ) :
    (replaced_velocity_run cp a vx vy).2 = a
    ∧ (without_player_run cp a).2 = a
    ∧ (new_location_run cp a rx ry rv vx vy).2 = a
    ∧ (difference_run cp a rv vx vy rx ry mode).2 = a
    ∧ (space_created_run cp a vx vy rx ry rv mode).2 = a
    ∧ replaced_velocity_run cp (replaced_velocity_run cp a vx vy).2 vx vy =
        replaced_velocity_run cp a vx vy
    ∧ without_player_run cp (without_player_run cp a).2 = without_player_run cp a
    ∧ new_location_run cp (new_location_run cp a rx ry rv vx vy).2 rx ry rv vx vy =
        new_location_run cp a rx ry rv vx vy
    ∧ difference_run cp (difference_run cp a rv vx vy rx ry mode).2 rv vx vy rx ry mode =
        difference_run cp a rv vx vy rx ry mode
    ∧ space_created_run cp (space_created_run cp a vx vy rx ry rv mode).2 vx vy rx ry rv mode =
        space_created_run cp a vx vy rx ry rv mode
    ∧ (∀ t2, t2 ≠ a.team_player_to_analyze →
        alistGet (replacedVelocityDict a frame vx vy) t2 = alistGet a.df_dict t2
        ∧ alistGet (withoutPlayerDict a frame) t2 = alistGet a.df_dict t2
        ∧ alistGet (newLocationDict a frame rx ry vx vy) t2 = alistGet a.df_dict t2) := by
  refine ⟨rfl, rfl, rfl, rfl, rfl, rfl, rfl, rfl, rfl, rfl, ?_⟩
  intro t2 ht
  exact ⟨replaceTeamDf_get_ne a.df_dict a.team_player_to_analyze t2 _ ht,
    replaceTeamDf_get_ne a.df_dict a.team_player_to_analyze t2 _ ht,
    replaceTeamDf_get_ne a.df_dict a.team_player_to_analyze t2 _ ht⟩

/-- Witness for C8 at a concrete session, including the locality of the
tracking copy for the other team. -/
theorem C8_operations_pure_witness :
    (replaced_velocity_run cp0 analyzerA 0 0).2 = analyzerA
    ∧ alistGet (replacedVelocityDict analyzerA 100 0 0) "Away" =
        alistGet analyzerA.df_dict "Away" := by
  have h := C8_operations_pure cp0 analyzerA 0 0 0 0 false "movement" 100
  exact ⟨h.1, (h.2.2.2.2.2.2.2.2.2.2 "Away" (by decide)).1⟩

/-- C10: where the two team tables are consumed together, divergent
frame indices cause the mismatched-frame-index failure with no output
frame produced, and identical indices produce the full clip with no such
failure. -/
theorem C10_save_match_clip_guard (e1 e2 : String × DFrame) :
    ((save_match_clip [e1, e2]).2 = Except.error AnalysisError.mismatchedFrameIndexError ↔
      dfIndex e1.2 ≠ dfIndex e2.2)
    ∧ (dfIndex e1.2 ≠ dfIndex e2.2 → (save_match_clip [e1, e2]).1 = [])
    ∧ (dfIndex e1.2 = dfIndex e2.2 →
        save_match_clip [e1, e2] = (dfIndex e1.2, Except.ok ())) := by
  by_cases h : dfIndex e1.2 = dfIndex e2.2
  · refine ⟨?_, fun hne => absurd h hne, fun _ => ?_⟩
    · simp [save_match_clip, h]
    · simp [save_match_clip, h]
  · refine ⟨?_, fun _ => ?_, fun he => absurd he h⟩
    · simp [save_match_clip, h]
    · simp [save_match_clip, h]

/-- Witness for C10 on a matching and on a mismatching pair of tables. -/
theorem C10_save_match_clip_guard_witness :
    save_match_clip [("Home", homeDf), ("Away", awayDf)] = ([100], Except.ok ())
    ∧ (save_match_clip [("Home", homeDf), ("Away", ([] : DFrame))]).2 =
        Except.error AnalysisError.mismatchedFrameIndexError := by
  constructor
  · have h := (C10_save_match_clip_guard ("Home", homeDf) ("Away", awayDf)).2.2 (by decide)
    rw [h]
    rfl
  · exact (C10_save_match_clip_guard ("Home", homeDf) ("Away", ([] : DFrame))).1.mpr
      (by decide)

/-- C4: on a well-formed session, validation fails with the
invalid-player error exactly when the player id is neither a string nor
an int; otherwise with the invalid-team error exactly when the analyzed
team is not among the dictionary keys; otherwise with the
player-not-on-pitch error exactly when the vx cell of the player at the
event Start Frame is missing or NaN for that team; and returns silently
when none of these hold.  The right-hand side spells out this exact
cascade in claim-side terms. -/
theorem C4_validate_inputs_cases (a : Analyzer) (evt : Event) (df : DFrame) (row : Row)
    (h3 : a.player_to_analyze.isStrOrInt = true →
      (a.df_dict.map Prod.fst).contains a.team_player_to_analyze = true →
      alistGet a.events a.event_id = some evt ∧
      alistGet a.df_dict a.team_player_to_analyze = some df ∧
      dfLoc df evt.startFrame = some row ∧
      (row.map Prod.fst).Nodup ∧
      (∀ cv ∈ row, colTeamOk a.team_player_to_analyze cv.1 = true)) :
    validate_inputs a =
      (if a.player_to_analyze.isStrOrInt = false then
        Except.error AnalysisError.invalidPlayerError
      else if (a.df_dict.map Prod.fst).contains a.team_player_to_analyze = false then
        Except.error AnalysisError.invalidTeamError
      else if velocityDefined row
          (ColKey.player a.team_player_to_analyze a.player_to_analyze.toStr PField.vx) then
        Except.ok ()
      else Except.error AnalysisError.playerNotOnPitchError) := by
  unfold validate_inputs
  by_cases h1 : a.player_to_analyze.isStrOrInt = false
  · rw [if_pos h1, if_pos h1]
  · rw [if_neg h1, if_neg h1]
    by_cases h2 : (a.df_dict.map Prod.fst).contains a.team_player_to_analyze = false
    · rw [if_pos h2, if_pos h2]
    · rw [if_neg h2, if_neg h2]
      have h1t : a.player_to_analyze.isStrOrInt = true := by
        revert h1
        cases a.player_to_analyze.isStrOrInt <;> simp
      have h2t : (a.df_dict.map Prod.fst).contains a.team_player_to_analyze = true := by
        revert h2
        cases (a.df_dict.map Prod.fst).contains a.team_player_to_analyze <;> simp
      obtain ⟨hEvt, hDf, hRow, hNd, hWf⟩ := h3 h1t h2t
      simp only [get_players_on_pitch, hEvt, hDf, hRow]
      have hiff := mem_pitchIds_iff row a.team_player_to_analyze
        a.player_to_analyze.toStr hNd hWf
      by_cases hv : velocityDefined row
          (ColKey.player a.team_player_to_analyze a.player_to_analyze.toStr PField.vx) = true
      · rw [if_pos hv]
        have hc : (pitchIds row).contains a.player_to_analyze.toStr = true :=
          List.elem_iff.mpr (hiff.mpr hv)
        rw [if_pos hc]
      · rw [if_neg hv]
        have hc : ¬((pitchIds row).contains a.player_to_analyze.toStr = true) :=
          fun hcc => hv (hiff.mp (List.elem_iff.mp hcc))
        rw [if_neg hc]

/-- Witness for C4 at a concrete session that passes validation. -/
theorem C4_validate_inputs_cases_witness : validate_inputs analyzerA = Except.ok () := by
  have h := C4_validate_inputs_cases analyzerA
    { startFrame := 100, team := "Home" } homeDf rowHome (by decide)
  rw [h]
  with_unfolding_all rfl

/-- C9: after a successful validation, a location perturbation returns
the perturbed surface computed from the rewritten tracking copy together
with the warning list, which holds the ambiguous-zero-velocity warning
exactly when replace_velocity is true and both replacement components
are zero; the warning never prevents the surface from being returned. -/
theorem C9_location_warning (cp : GenArgs → ℕ → ℕ → ℚ) (a : Analyzer)
    (rx ry : ℚ) (rv : Bool) (vx vy : ℚ) (evt : Event)
    (hval : validate_inputs a = Except.ok ())
    (hEvt : alistGet a.events a.event_id = some evt) :
    calculate_pitch_control_new_location cp a rx ry rv vx vy =
      Except.ok (generate_surface cp (locationGenArgs a evt.startFrame rx ry vx vy),
        if rv && decide (vx = 0) && decide (vy = 0) then [warnNoVelocity] else [])
    ∧ ((if rv && decide (vx = 0) && decide (vy = 0) then [warnNoVelocity] else []) ≠
          ([] : List String) ↔
        rv = true ∧ vx = 0 ∧ vy = 0) := by
  constructor
  · simp only [calculate_pitch_control_new_location, hval, hEvt]
  · cases hcond : (rv && decide (vx = 0) && decide (vy = 0)) with
    | true =>
      simp only [if_pos rfl]
      constructor
      · intro _
        have := hcond
        simp only [Bool.and_eq_true, decide_eq_true_eq] at this
        exact ⟨this.1.1, this.1.2, this.2⟩
      · intro _
        simp [warnNoVelocity]
    | false =>
      simp only [Bool.false_eq_true, if_neg]
      constructor
      · intro hne
        exact absurd rfl hne
      · intro hcc
        have : (rv && decide (vx = 0) && decide (vy = 0)) = true := by
          simp [hcc.1, hcc.2.1, hcc.2.2]
        rw [hcond] at this
        exact absurd this (by simp)

/-- Witness for C9: requesting velocity replacement with a zero vector
emits the warning and still returns the perturbed surface. -/
theorem C9_location_warning_witness :
    calculate_pitch_control_new_location cp0 analyzerA 0 0 true 0 0 =
      Except.ok (generate_surface cp0 (locationGenArgs analyzerA 100 0 0 0 0),
        [warnNoVelocity]) := by
  have h := (C9_location_warning cp0 analyzerA 0 0 true 0 0
    { startFrame := 100, team := "Home" } (by with_unfolding_all decide) (by decide)).1
  rw [h]
  with_unfolding_all rfl

/-- C6: the space integral of any surface is field length times field
width times the cell sum over the stored grid cell count (a pure
arithmetic reduction), and whenever the difference wrapper succeeds the
space wrapper returns that integral of the difference as-is when the
analyzed team possesses the ball at the event, negated otherwise. -/
theorem C6_space_formula_and_sign (cp : GenArgs → ℕ → ℕ → ℚ) (a : Analyzer)
    (s : Surface) (evt : Event) (vx vy rx ry : ℚ) (rv : Bool) (mode : String)
    (d : Surface) (xg yg : List ℚ)
    (hEvt : alistGet a.events a.event_id = some evt)
    (hDiff : calculate_pitch_control_difference cp a rv vx vy rx ry mode =
      Except.ok (d, xg, yg)) :
    calculate_total_space_on_pitch_team a s =
      a.field_dimens.1 * a.field_dimens.2 * ((s.map List.sum).sum) /
        ((a.xgrid.length : ℚ) * (a.ygrid.length : ℚ))
    ∧ calculate_space_created cp a vx vy rx ry rv mode =
      Except.ok (if evt.team = a.team_player_to_analyze
        then calculate_total_space_on_pitch_team a d
        else -(calculate_total_space_on_pitch_team a d)) := by
  constructor
  · unfold calculate_total_space_on_pitch_team
    rw [npSum_eq_sum]
  · simp only [calculate_space_created, hEvt, hDiff]
    by_cases ht : evt.team = a.team_player_to_analyze
    · rw [if_pos ht, if_pos ht]
    · rw [if_neg ht, if_neg ht, neg_one_mul]

/-- Witness for C6: at a concrete session the movement difference is
the zero surface and the space wrapper returns its integral with the
positive sign, the analyzed team being in possession. -/
theorem C6_space_formula_and_sign_witness :
    calculate_space_created cp0 analyzerA 0 0 0 0 false "movement" =
      Except.ok (calculate_total_space_on_pitch_team analyzerA
        (zeroOf (generate_surface cp0 (defaultGenArgs 0 eventsA dfDictA paramsA)).1)) := by
  have h := (C6_space_formula_and_sign cp0 analyzerA []
    { startFrame := 100, team := "Home" } 0 0 0 0 false "movement"
    (zeroOf (generate_surface cp0 (defaultGenArgs 0 eventsA dfDictA paramsA)).1)
    (gridCoords 106 50) (gridCoords 68 32)
    (by decide) (by with_unfolding_all rfl)).2
  rw [h]
  rw [if_pos (show ("Home" : String) = analyzerA.team_player_to_analyze from rfl)]

/-- C7 (amended): on a session whose grid parameters equal the
collaborator defaults used for the baseline, calling the space wrapper
with mode movement and replacement velocity components equal to the
current velocity cells of the player returns zero: the rewritten copy
equals the original tables, the regenerated surface equals the baseline,
and the integrated difference vanishes. -/
theorem C7_movement_self_replacement_zero (cp : GenArgs → ℕ → ℕ → ℚ) (a : Analyzer)
    (evt : Event) (df : DFrame) (row : Row) (vx vy rx ry : ℚ) (rv : Bool)
    (hBase : a.event_pitch_control =
      (generate_surface cp (defaultGenArgs a.event_id a.events a.df_dict a.params)).1)
    (hfd : a.field_dimens = defaultFieldDimen)
    (hn : a.n_grid_cells_x = defaultNGridCellsX)
    (hval : validate_inputs a = Except.ok ())
    (hEvt : alistGet a.events a.event_id = some evt)
    (hnd : (a.df_dict.map Prod.fst).Nodup)
    (hdf : alistGet a.df_dict a.team_player_to_analyze = some df)
    (hrow : dfLoc df evt.startFrame = some row)
    (hvx : rowGet row (pcol a.team_player_to_analyze a.player_to_analyze PField.vx) =
      some (some vx))
    (hvy : rowGet row (pcol a.team_player_to_analyze a.player_to_analyze PField.vy) =
      some (some vy)) :
    calculate_space_created cp a vx vy rx ry rv "movement" = Except.ok 0 := by
  have hdict : replacedVelocityDict a evt.startFrame vx vy = a.df_dict := by
    unfold replacedVelocityDict
    refine replaceTeamDf_id a.df_dict a.team_player_to_analyze _ df hnd hdf ?_
    rw [dfAt_get_self df evt.startFrame row _ _ hrow hvx]
    exact dfAt_get_self df evt.startFrame row _ _ hrow hvy
  have hargs : movementGenArgs a evt.startFrame vx vy =
      defaultGenArgs a.event_id a.events a.df_dict a.params := by
    unfold movementGenArgs defaultGenArgs
    rw [hdict, hfd, hn]
  have hmethod : calculate_pitch_control_replaced_velocity cp a vx vy =
      Except.ok (generate_surface cp (defaultGenArgs a.event_id a.events a.df_dict a.params)) := by
    simp only [calculate_pitch_control_replaced_velocity, hval, hEvt, hargs]
  have hdiff : calculate_pitch_control_difference cp a rv vx vy rx ry "movement" =
      Except.ok
        (zeroOf (generate_surface cp (defaultGenArgs a.event_id a.events a.df_dict a.params)).1,
          (generate_surface cp (defaultGenArgs a.event_id a.events a.df_dict a.params)).2.1,
          (generate_surface cp (defaultGenArgs a.event_id a.events a.df_dict a.params)).2.2) := by
    simp only [calculate_pitch_control_difference, hmethod, hBase, if_true, npSub_self]
  simp only [calculate_space_created, hEvt, hdiff, total_space_zeros]
  by_cases ht : evt.team = a.team_player_to_analyze
  · rw [if_pos ht]
  · rw [if_neg ht]
    norm_num

/-- Witness for C7 (amended) at a concrete default-grid session,
replacing the velocity of the player with its current value. -/
theorem C7_movement_self_replacement_zero_witness :
    calculate_space_created cp0 analyzerA 1 2 0 0 false "movement" = Except.ok 0 :=
  C7_movement_self_replacement_zero cp0 analyzerA
    { startFrame := 100, team := "Home" } homeDf rowHome 1 2 0 0 false
    rfl rfl rfl (by decide) (by decide) (by decide) (by decide) (by decide)
    (by with_unfolding_all decide) (by with_unfolding_all decide)

/-- C7 (counterexample): a session with a non-default x cell count
passes validation, the replacement components equal the current velocity
cells, yet the space wrapper does not return zero: the baseline was
computed on the default grid, the perturbed surface on the session grid,
and their elementwise subtraction fails with a shape broadcast error. -/
theorem C7_counterexample_nondefault_grid :
    validate_inputs analyzerB = Except.ok ()
    ∧ rowGet rowHome (ColKey.player "Home" "7" PField.vx) = some (some 1)
    ∧ rowGet rowHome (ColKey.player "Home" "7" PField.vy) = some (some 2)
    ∧ calculate_space_created cp0 analyzerB 1 2 0 0 false "movement" =
        Except.error AnalysisError.shapeBroadcastError
    ∧ calculate_space_created cp0 analyzerB 1 2 0 0 false "movement" ≠ Except.ok 0 := by
  have h4 : calculate_space_created cp0 analyzerB 1 2 0 0 false "movement" =
      Except.error AnalysisError.shapeBroadcastError := by
    with_unfolding_all rfl
  refine ⟨by decide, by decide, by decide, h4, ?_⟩
  intro h
  rw [h4] at h
  exact Except.noConfusion h

/-- C1: at a concrete session whose analyzed player sits at x = 5 with
vx = 1, a location perturbation with relative changes (2, 1) and
replace_velocity false stores the raw change 2 as the absolute x
coordinate (not the shifted position 5 + 2 = 7) and overwrites vx with
the replacement value 0 although no velocity replacement was requested;
the claimed relative shift and conditional velocity replacement do not
hold of the code. -/
theorem C1_new_location_divergence :
    (((alistGet (newLocationDict analyzerA 100 2 1 0 0) "Home").bind
        fun df2 => dfLoc df2 100).bind
        fun r => rowGet r (ColKey.player "Home" "7" PField.x)) = some (some 2)
    ∧ (((alistGet analyzerA.df_dict "Home").bind fun df2 => dfLoc df2 100).bind
        fun r => rowGet r (ColKey.player "Home" "7" PField.x)) = some (some 5)
    ∧ (some (some (2 : ℚ)) : Option (Option ℚ)) ≠ some (some (5 + 2))
    ∧ (((alistGet (newLocationDict analyzerA 100 2 1 0 0) "Home").bind
        fun df2 => dfLoc df2 100).bind
        fun r => rowGet r (ColKey.player "Home" "7" PField.vx)) = some (some 0)
    ∧ (((alistGet analyzerA.df_dict "Home").bind fun df2 => dfLoc df2 100).bind
        fun r => rowGet r (ColKey.player "Home" "7" PField.vx)) = some (some 1)
    ∧ ((0 : ℚ) : ℚ) ≠ 1
    ∧ calculate_pitch_control_new_location cp0 analyzerA 2 1 false 0 0 =
        Except.ok (generate_surface cp0 (locationGenArgs analyzerA 100 2 1 0 0), []) := by
  refine ⟨by with_unfolding_all decide, by with_unfolding_all decide,
    by with_unfolding_all decide, by with_unfolding_all decide,
    by with_unfolding_all decide, by with_unfolding_all decide, ?_⟩
  with_unfolding_all rfl

/-- C2: the identity relocation (relative changes 0, 0 and
replace_velocity false) does not leave the tracking copy equal to the
original tables at a concrete session: the player is moved from x = 5 to
the absolute coordinate 0 and the velocity vx = 1 is zeroed, so the
perturbed surface is regenerated from a different snapshot and the
difference surface is not the zero surface in general. -/
theorem C2_identity_relocation_perturbs :
    newLocationDict analyzerA 100 0 0 0 0 ≠ analyzerA.df_dict
    ∧ (((alistGet (newLocationDict analyzerA 100 0 0 0 0) "Home").bind
        fun df2 => dfLoc df2 100).bind
        fun r => rowGet r (ColKey.player "Home" "7" PField.x)) = some (some 0)
    ∧ (((alistGet analyzerA.df_dict "Home").bind fun df2 => dfLoc df2 100).bind
        fun r => rowGet r (ColKey.player "Home" "7" PField.x)) = some (some 5)
    ∧ (((alistGet (newLocationDict analyzerA 100 0 0 0 0) "Home").bind
        fun df2 => dfLoc df2 100).bind
        fun r => rowGet r (ColKey.player "Home" "7" PField.vx)) = some (some 0)
    ∧ (((alistGet analyzerA.df_dict "Home").bind fun df2 => dfLoc df2 100).bind
        fun r => rowGet r (ColKey.player "Home" "7" PField.vx)) = some (some 1) := by
  with_unfolding_all decide

end LastRow
